import Mathlib

/-!
Verification of the CaseBuddy live-session audio/tool-call loop and session
persistence, shallowly embedded from `src/pages/Index.tsx` (the `LiveSession`
component) and `src/utils/storage.ts`. Clock times, durations and audio
samples are modelled as rationals; JavaScript objects become structures and
the event callbacks become explicit state-passing functions.
-/

namespace CaseBuddy

/-- Session configuration `{type, industry, difficulty}` (types.ts `CaseConfig`). -/
structure CaseConfig where
  type : String
  industry : String
  difficulty : String
  deriving Repr, DecidableEq

/-- The notebook object owned by the live-session view. The declared fields are
`caseTitle`, `currentPhase`, `keyData`, `candidateFramework`, `caseTimeline`
and `trialNotes` (Index.tsx lines 308-315). The extra `newTimelineEvent`
component models the runtime property that the object spread
`{ ...prev, ...args }` in the tool-call handler copies onto the notebook
object when the argument is present; it is not one of the declared fields but
it does end up on the JavaScript object. -/
structure NotebookState where
  caseTitle : String
  currentPhase : String
  keyData : List String
  candidateFramework : List String
  caseTimeline : List String
  trialNotes : List String
  newTimelineEvent : Option String
  deriving Repr, DecidableEq

/-- The initial notebook literal (Index.tsx lines 308-315). -/
def initialNotebook : NotebookState :=
  { caseTitle := "Initializing..."
    currentPhase := "Setup"
    keyData := []
    candidateFramework := []
    caseTimeline := []
    trialNotes := []
    newTimelineEvent := none }

/-- Arguments of the `updateNotebook` tool as declared in the tool schema
(Index.tsx lines 594-606): five optional fields, where `none` means the key is
absent from the arguments object. -/
structure UpdateNotebookArgs where
  caseTitle : Option String
  currentPhase : Option String
  keyData : Option (List String)
  candidateFramework : Option (List String)
  newTimelineEvent : Option String
  deriving Repr, DecidableEq

/-- JavaScript truthiness of an optional string: absent and the empty string
are falsy, every other string is truthy. -/
def truthyString : Option String → Bool
  | none => false
  | some s => !(s == "")

/-- The notebook mutation of the tool-call handler (Index.tsx lines 683-689):
`const next = { ...prev, ...args }` shallow-merges every present argument key
over the previous notebook (including the `newTimelineEvent` key itself), and
then `if (args.newTimelineEvent) next.caseTimeline = [...(prev.caseTimeline
|| []), args.newTimelineEvent]` appends the timeline event to the previous
timeline when the argument is truthy. -/
def applyUpdateNotebook (prev : NotebookState) (args : UpdateNotebookArgs) :
    NotebookState :=
  let next : NotebookState :=
    { caseTitle := args.caseTitle.getD prev.caseTitle
      currentPhase := args.currentPhase.getD prev.currentPhase
      keyData := args.keyData.getD prev.keyData
      candidateFramework := args.candidateFramework.getD prev.candidateFramework
      caseTimeline := prev.caseTimeline
      trialNotes := prev.trialNotes
      newTimelineEvent :=
        match args.newTimelineEvent with
        | some s => some s
        | none => prev.newTimelineEvent }
  if truthyString args.newTimelineEvent then
    { next with caseTimeline := prev.caseTimeline ++ args.newTimelineEvent.toList }
  else next

/-- An arguments object whose only present key is `newTimelineEvent`. -/
def onlyTimelineArgs (s : String) : UpdateNotebookArgs :=
  { caseTitle := none
    currentPhase := none
    keyData := none
    candidateFramework := none
    newTimelineEvent := some s }

/-- A function call of a tool-call batch (`msg.toolCall.functionCalls`). -/
structure FunctionCall where
  id : String
  name : String
  args : UpdateNotebookArgs
  deriving Repr, DecidableEq

/-- The tool response sent back through `sendToolResponse`
(Index.tsx lines 690-696). -/
structure ToolResponse where
  id : String
  name : String
  result : String
  deriving Repr, DecidableEq

/-- Processing of one function call in the handler loop (Index.tsx lines
679-698): an `updateNotebook` call mutates the notebook and sends exactly one
response carrying the call identifier and name; any other call is skipped. -/
def processFunctionCall (nb : NotebookState) (fc : FunctionCall) :
    NotebookState × List ToolResponse :=
  if fc.name == "updateNotebook" then
    (applyUpdateNotebook nb fc.args,
      [{ id := fc.id, name := fc.name, result := "Notebook updated" }])
  else (nb, [])

/-- The `for (const fc of msg.toolCall.functionCalls)` loop
(Index.tsx lines 679-699). -/
def processToolCalls (nb : NotebookState) :
    List FunctionCall → NotebookState × List ToolResponse
  | [] => (nb, [])
  | fc :: rest =>
    let r := processFunctionCall nb fc
    let r2 := processToolCalls r.1 rest
    (r2.1, r.2 ++ r2.2)

/-- A scheduled output audio source: its computed start time and buffer
duration (seconds), both rationals. -/
structure ScheduledSource where
  start : ℚ
  duration : ℚ
  deriving Repr, DecidableEq

/-- The playback end time of a scheduled source. -/
def sourceEnd (s : ScheduledSource) : ℚ := s.start + s.duration

/-- Start-time computation of the playback scheduler (Index.tsx line 651):
`const start = Math.max(now, nextStartTimeRef.current)`. -/
def scheduleStart (now cursor : ℚ) : ℚ := max now cursor

/-- A message delivered to the `onmessage` callback, restricted to the parts
the handler inspects: the optional inline audio chunk (represented by its
decoded buffer duration), the `interrupted` flag, and the tool-call batch. -/
structure ServerMessage where
  audioDuration : Option ℚ
  interrupted : Bool
  functionCalls : List FunctionCall
  deriving Repr, DecidableEq

/-- The mutable state touched by the `onmessage` callback: the set of
currently scheduled sources (`sourcesRef`), the schedule cursor
(`nextStartTimeRef`), and the notebook. -/
structure LiveState where
  sources : List ScheduledSource
  nextStartTime : ℚ
  notebook : NotebookState
  deriving Repr, DecidableEq

/-- The `onmessage` callback (Index.tsx lines 639-700), given the current
output clock time `now`. In source order: (1) if the message carries audio,
compute `start = max(now, nextStartTime)`, schedule the source at `start`,
set the cursor to `start + duration` and add the source to the set (lines
650-658); (2) if the message carries the `interrupted` flag, stop and discard
every scheduled source, clear the set and reset the cursor to 0 (lines
666-674); (3) run the tool-call loop and collect the responses it sends
(lines 677-699). -/
def handleMessage (now : ℚ) (st : LiveState) (msg : ServerMessage) :
    LiveState × List ToolResponse :=
  let st1 : LiveState :=
    match msg.audioDuration with
    | none => st
    | some d =>
      let start := scheduleStart now st.nextStartTime
      { st with
          sources :=
            st.sources ++ [({ start := start, duration := d } : ScheduledSource)]
          nextStartTime := start + d }
  let st2 :=
    if msg.interrupted then { st1 with sources := [], nextStartTime := 0 }
    else st1
  let r := processToolCalls st2.notebook msg.functionCalls
  ({ st2 with notebook := r.1 }, r.2)

/-- A message carrying only an audio chunk of duration `d`. -/
def audioMsg (d : ℚ) : ServerMessage :=
  { audioDuration := some d, interrupted := false, functionCalls := [] }

/-- The schedule produced by a sequence of audio chunks: each list element is
the output clock time at arrival paired with the chunk duration, and the
scheduler is the one of Index.tsx lines 650-657 (start at
`max(now, cursor)`, cursor advances to `start + duration`). -/
def runSchedule (cursor : ℚ) : List (ℚ × ℚ) → List ScheduledSource
  | [] => []
  | (now, d) :: rest =>
    let start := scheduleStart now cursor
    ({ start := start, duration := d } : ScheduledSource) ::
      runSchedule (start + d) rest

/-- Delivering a sequence of audio-only messages to the `onmessage` callback
in arrival order, each paired with the output clock time at its arrival. -/
def runAudioSequence (st : LiveState) : List (ℚ × ℚ) → LiveState
  | [] => st
  | (now, d) :: rest => runAudioSequence (handleMessage now st (audioMsg d)).1 rest

/-- Modelled from the spec: `clampSample` is part of `createPcmBlob` in
`@/utils/audioUtils`, a module that is not among the provided sources; the
spec states post-gain samples "are clamped to [-1,1] before encoding". -/
def clampSample (v : ℚ) : ℚ := max (-1) (min 1 v)

/-- Modelled from the spec: the 16-bit conversion of `createPcmBlob`
(`@/utils/audioUtils`, not among the provided sources). Per the spec, the
encoded sample equals `round(clamp(v,-1,1) * 32767)` for non-negative clamped
values and `round(clamp(v,-1,1) * 32768)` for negative ones. -/
def encodeSample (v : ℚ) : ℤ :=
  let c := clampSample v
  if c < 0 then round (c * 32768) else round (c * 32767)

/-- Modelled from the spec: `createPcmBlob` (`@/utils/audioUtils`, not among
the provided sources) converts a frame of samples to 16-bit signed PCM,
sample by sample. -/
def createPcmBlob (frame : List ℚ) : List ℤ := frame.map encodeSample

/-- The gain loop of the audio-process callback (Index.tsx lines 531-534):
`inputData[i] *= gain` for every sample of the frame. -/
def applyGain (g : ℚ) (frame : List ℚ) : List ℚ := frame.map (fun x => x * g)

/-- The live-session component state relevant to the capture path. `isMuted`
is the React state of line 302. `capturedMuted` is the value of `isMuted`
seen by the `onaudioprocess` closure: the closure is created inside the init
effect (lines 470-736) and closes over the render scope in which that effect
ran. `sessionActive` models `sessionRef.current` being non-null, and
`inputGain` models `inputGainRef.current` (a ref kept in sync with the gain
state by the effect at lines 341-343). -/
structure SessionComponent where
  isMuted : Bool
  capturedMuted : Bool
  sessionActive : Bool
  inputGain : ℚ
  deriving Repr, DecidableEq

/-- Component state on first render: unmuted, no handler installed yet, no
active session, unit gain. -/
def initialComponent : SessionComponent :=
  { isMuted := false, capturedMuted := false, sessionActive := false, inputGain := 1 }

/-- The init effect (Index.tsx lines 470-736) assigns `processor.onaudioprocess`
(line 525); the created closure captures the `isMuted` value of the render in
which the effect ran. The effect's dependency array is
`[config, echoCancellation, noiseSuppression]` (line 736). -/
def installAudioHandler (c : SessionComponent) : SessionComponent :=
  { c with capturedMuted := c.isMuted }

/-- `sessionPromise.then(sess => { sessionRef.current = sess; ... })`
(Index.tsx lines 712-713): the session becomes active. -/
def activateSession (c : SessionComponent) : SessionComponent :=
  { c with sessionActive := true }

/-- The mute button (Index.tsx line 966) runs `setIsMuted(!isMuted)`. This
re-renders the component, but the init effect does not re-run — `isMuted` is
not among its dependencies (line 736) and the `onaudioprocess` assignment is
never repeated — so the value captured by the installed closure is unchanged. -/
def toggleMute (c : SessionComponent) : SessionComponent :=
  { c with isMuted := !c.isMuted }

/-- The `onaudioprocess` callback (Index.tsx lines 525-544): it returns early
(sending nothing) when the captured `isMuted` value is true or no active
session exists; otherwise it applies the gain to the frame and sends the
PCM-encoded frame as a single realtime-input message. -/
def onaudioprocess (c : SessionComponent) (frame : List ℚ) : Option (List ℤ) :=
  if c.capturedMuted || !c.sessionActive then none
  else some (createPcmBlob (applyGain c.inputGain frame))

/-- A saved session record (types.ts `SavedSession`, without the optional
feedback payload, which is attached by a later write). -/
structure SavedSession where
  id : String
  config : CaseConfig
  notebook : NotebookState
  date : Nat
  duration : Nat
  deriving Repr, DecidableEq

/-- The local storage state: the "all sessions" key and the "last session"
key of storage.ts. -/
structure StorageState where
  sessions : List SavedSession
  lastSession : Option SavedSession
  deriving Repr, DecidableEq

/-- The upsert step of `saveSession` (storage.ts lines 8-15): find the index
of an existing record with the same id; replace it in place when found,
otherwise `unshift` the new record to the front. -/
def upsertSession (sessions : List SavedSession) (s : SavedSession) :
    List SavedSession :=
  match sessions.findIdx? (fun t => t.id == s.id) with
  | some i => sessions.set i s
  | none => s :: sessions

/-- The effect of a successful `saveSession` call (storage.ts lines 6-24):
upsert, trim to the first 50 records (`slice(0, 50)`), write the trimmed list
to the "all sessions" key and the saved record to the "last session" key. -/
def saveSessionOk (st : StorageState) (s : SavedSession) : StorageState :=
  let sessions := upsertSession st.sessions s
  let trimmed := sessions.take 50
  { sessions := trimmed, lastSession := some s }

/-- Failure injection for the storage backend: whether `localStorage.getItem`
(inside `getAllSessions`) and each of the two `localStorage.setItem` calls of
`saveSession` throw. -/
structure StorageBackend where
  getItemFails : Bool
  setSessionsFails : Bool
  setLastFails : Bool
  deriving Repr, DecidableEq

/-- `getAllSessions` (storage.ts lines 26-34): it wraps the read in its own
try/catch and returns `[]` on failure, so it never throws into its caller. -/
def getAllSessionsRun (b : StorageBackend) (st : StorageState) :
    List SavedSession :=
  if b.getItemFails then [] else st.sessions

/-- The body of the `try` block of `saveSession` (storage.ts lines 7-20) with
injected backend failures. An error value carries the storage state as of the
failure point (writes already performed stay performed) together with the
thrown message; an ok value is the fully written state. -/
def saveSessionBody (b : StorageBackend) (st : StorageState) (s : SavedSession) :
    Except (StorageState × String) StorageState :=
  let sessions := getAllSessionsRun b st
  let trimmed := (upsertSession sessions s).take 50
  if b.setSessionsFails then .error (st, "setItem failed")
  else if b.setLastFails then
    .error ({ st with sessions := trimmed }, "setItem failed")
  else .ok { sessions := trimmed, lastSession := some s }

/-- `saveSession` as observed by its caller (storage.ts lines 6-24): the
try/catch turns every thrown error into a `console.error` log (the second
component) and a normal return; the function never re-throws. -/
def saveSessionRun (b : StorageBackend) (st : StorageState) (s : SavedSession) :
    StorageState × Option String :=
  match saveSessionBody b st s with
  | .ok st1 => (st1, none)
  | .error e => (e.1, some ("Failed to save session: " ++ e.2))

/-- The externally visible actions of `handleEndSession`
(Index.tsx lines 413-440), in program order. -/
inductive EndSessionAction
  | stopSession
  | saveLocal (sessionId : String)
  | insertRemote (caseId : String)
  | onEnd (sessionId : String)
  deriving Repr, DecidableEq

/-- Whether an action is the local storage write. -/
def isSaveLocal : EndSessionAction → Bool
  | .saveLocal _ => true
  | _ => false

/-- Whether an action is the remote session insert. -/
def isRemoteInsert : EndSessionAction → Bool
  | .insertRemote _ => true
  | _ => false

/-- `handleEndSession` (Index.tsx lines 413-440): stop the session, build one
`SavedSession` record and write it to local storage, then — only `if (user &&
caseId)`, i.e. when the authenticated user object is non-null and the
`caseId` prop is a truthy string — issue one remote insert, and finally call
`onEnd`. `userAuthed` models the user object being non-null and `caseId` the
optional prop (with `none` for undefined). -/
def handleEndSession (userAuthed : Bool) (caseId : Option String)
    (sessionId : String) : List EndSessionAction :=
  [.stopSession, .saveLocal sessionId] ++
    (match caseId with
     | some c => if userAuthed && !(c == "") then [.insertRemote c] else []
     | none => []) ++
    [.onEnd sessionId]

/-- A sample configuration used to instantiate concrete session records. -/
def demoConfig : CaseConfig :=
  { type := "Profitability", industry := "Technology", difficulty := "Beginner" }

/-- A concrete session record with the given id, date and duration. -/
def demoSession (id : String) (date duration : Nat) : SavedSession :=
  { id := id, config := demoConfig, notebook := initialNotebook,
    date := date, duration := duration }

/-- C3 as literally claimed: an `updateNotebook` call whose arguments contain
only `newTimelineEvent` appends exactly that one string to `caseTimeline`,
leaves every other notebook field unchanged, and adds or removes no field of
the notebook object. -/
def claimC3Statement : Prop :=
  ∀ (prev : NotebookState) (s : String),
    (applyUpdateNotebook prev (onlyTimelineArgs s)).caseTimeline =
        prev.caseTimeline ++ [s] ∧
    (applyUpdateNotebook prev (onlyTimelineArgs s)).caseTitle = prev.caseTitle ∧
    (applyUpdateNotebook prev (onlyTimelineArgs s)).currentPhase =
        prev.currentPhase ∧
    (applyUpdateNotebook prev (onlyTimelineArgs s)).keyData = prev.keyData ∧
    (applyUpdateNotebook prev (onlyTimelineArgs s)).candidateFramework =
        prev.candidateFramework ∧
    (applyUpdateNotebook prev (onlyTimelineArgs s)).trialNotes =
        prev.trialNotes ∧
    (applyUpdateNotebook prev (onlyTimelineArgs s)).newTimelineEvent =
        prev.newTimelineEvent

/-- Unfolding equation of the scheduler: one chunk arriving at clock time
`now` with cursor `cursor` is scheduled at `max now cursor` and the cursor
advances to the scheduled start plus the buffer duration. -/
theorem runSchedule_cons (c now d : ℚ) (rest : List (ℚ × ℚ)) :
    runSchedule c ((now, d) :: rest) =
      ({ start := scheduleStart now c, duration := d } : ScheduledSource) ::
        runSchedule (scheduleStart now c + d) rest := rfl

/-- The first source produced from cursor `c` starts no earlier than `c`. -/
theorem runSchedule_head_start (c : ℚ) (chunks : List (ℚ × ℚ)) :
    ∀ a ∈ (runSchedule c chunks).head?, c ≤ a.start := by
  cases chunks with
  | nil => simp [runSchedule]
  | cons p rest =>
    obtain ⟨now, d⟩ := p
    intro a ha
    simp [runSchedule, scheduleStart] at ha
    simp [← ha, le_max_right]

/-- Adjacent scheduled sources neither overlap nor go backwards in time, as
long as every chunk duration is non-negative. -/
theorem runSchedule_chain (c : ℚ) (chunks : List (ℚ × ℚ))
    (hd : ∀ p ∈ chunks, 0 ≤ p.2) :
    List.Chain' (fun a b => sourceEnd a ≤ b.start ∧ a.start ≤ b.start)
      (runSchedule c chunks) := by
  induction chunks generalizing c with
  | nil => simp [runSchedule]
  | cons p rest ih =>
    obtain ⟨now, d⟩ := p
    have hd0 : 0 ≤ d := hd (now, d) (List.mem_cons_self _ _)
    rw [runSchedule_cons, List.chain'_cons']
    constructor
    · intro b hb
      have hle := runSchedule_head_start (scheduleStart now c + d) rest b hb
      refine ⟨by simpa [sourceEnd] using hle, ?_⟩
      have h1 : scheduleStart now c ≤ scheduleStart now c + d :=
        le_add_of_nonneg_right hd0
      exact h1.trans hle
    · exact ih _ (fun q hq => hd q (List.mem_cons_of_mem _ hq))

/-- An audio-only message leaves the notebook alone, appends one source
scheduled at `max now cursor` to the set, and advances the cursor. -/
theorem handleMessage_audio (now : ℚ) (st : LiveState) (d : ℚ) :
    (handleMessage now st (audioMsg d)).1 =
      { st with
          sources :=
            st.sources ++
              [({ start := scheduleStart now st.nextStartTime, duration := d } :
                  ScheduledSource)]
          nextStartTime := scheduleStart now st.nextStartTime + d } := rfl

/-- Delivering audio chunks through the message callback appends exactly the
sources computed by the scheduler to the live set. -/
theorem runAudioSequence_sources (st : LiveState) (chunks : List (ℚ × ℚ)) :
    (runAudioSequence st chunks).sources =
      st.sources ++ runSchedule st.nextStartTime chunks := by
  induction chunks generalizing st with
  | nil => simp [runAudioSequence, runSchedule]
  | cons p rest ih =>
    obtain ⟨now, d⟩ := p
    rw [runAudioSequence, handleMessage_audio, ih]
    simp [runSchedule_cons, List.append_assoc]

/-- C1: for every sequence of received audio chunks with non-negative
durations, processed in arrival order by the message callback from any clock
and cursor values, each chunk is scheduled at
`max(currentOutputClockTime, nextScheduledEndTime)` and the cursor becomes
`start + bufferDuration` (first conjunct), the callback adds exactly these
sources to the live set (second conjunct), and consecutive scheduled sources
satisfy `end_prev ≤ start_next` and `start_prev ≤ start_next`: starts are
non-decreasing and no two scheduled chunks overlap (third conjunct). -/
theorem scheduler_no_overlap (st : LiveState) (chunks : List (ℚ × ℚ))
    (hd : ∀ p ∈ chunks, 0 ≤ p.2) :
    (∀ (c now d : ℚ) (rest : List (ℚ × ℚ)),
        runSchedule c ((now, d) :: rest) =
          ({ start := scheduleStart now c, duration := d } : ScheduledSource) ::
            runSchedule (scheduleStart now c + d) rest) ∧
    (runAudioSequence st chunks).sources =
      st.sources ++ runSchedule st.nextStartTime chunks ∧
    List.Chain' (fun a b => sourceEnd a ≤ b.start ∧ a.start ≤ b.start)
      (runSchedule st.nextStartTime chunks) :=
  ⟨fun c now d rest => runSchedule_cons c now d rest,
   runAudioSequence_sources st chunks,
   runSchedule_chain st.nextStartTime chunks hd⟩

/-- Witness for C1: a concrete three-chunk arrival pattern with jitter
(the second chunk arrives late, the third early) satisfies the duration
hypothesis and yields a non-overlapping schedule. -/
theorem scheduler_no_overlap_witness :
    (∀ p ∈ ([((0 : ℚ), (1 : ℚ)), (3, 1), (1, 2)] : List (ℚ × ℚ)), 0 ≤ p.2) ∧
    List.Chain' (fun a b => sourceEnd a ≤ b.start ∧ a.start ≤ b.start)
      (runSchedule (0 : ℚ) [((0 : ℚ), (1 : ℚ)), (3, 1), (1, 2)]) :=
  ⟨by decide,
   (scheduler_no_overlap
      { sources := [], nextStartTime := 0, notebook := initialNotebook }
      [((0 : ℚ), (1 : ℚ)), (3, 1), (1, 2)] (by decide)).2.2⟩

/-- C2: whenever the message callback receives a message whose interrupted
flag is set, after the handler runs the set of scheduled sources is empty and
the cursor `nextStartTimeRef` equals 0; consequently a chunk received
immediately afterwards, at any non-negative clock time, is scheduled to start
at that clock time. -/
theorem interrupted_resets (now : ℚ) (st : LiveState) (msg : ServerMessage)
    (h : msg.interrupted = true) :
    (handleMessage now st msg).1.sources = [] ∧
    (handleMessage now st msg).1.nextStartTime = 0 ∧
    ∀ now2 : ℚ, 0 ≤ now2 →
      scheduleStart now2 (handleMessage now st msg).1.nextStartTime = now2 := by
  obtain ⟨ad, intr, fcs⟩ := msg
  simp only at h
  subst h
  cases ad with
  | none =>
    refine ⟨rfl, rfl, fun now2 h2 => ?_⟩
    simpa [handleMessage, scheduleStart] using max_eq_left h2
  | some d =>
    refine ⟨rfl, rfl, fun now2 h2 => ?_⟩
    simpa [handleMessage, scheduleStart] using max_eq_left h2

/-- Witness for C2: a concrete interrupted message (which also carries an
audio chunk) empties a non-empty source set, resets a stale cursor of 7, and
a chunk arriving right after at clock time 2 starts at 2. -/
theorem interrupted_resets_witness :
    ((({ audioDuration := some 1, interrupted := true, functionCalls := [] } :
        ServerMessage)).interrupted = true) ∧
    (handleMessage 5
        { sources := [{ start := 4, duration := 2 }], nextStartTime := 7,
          notebook := initialNotebook }
        { audioDuration := some 1, interrupted := true,
          functionCalls := [] }).1.sources = [] ∧
    scheduleStart 2
      (handleMessage 5
        { sources := [{ start := 4, duration := 2 }], nextStartTime := 7,
          notebook := initialNotebook }
        { audioDuration := some 1, interrupted := true,
          functionCalls := [] }).1.nextStartTime = 2 := by
  refine ⟨rfl, ?_, ?_⟩
  · exact (interrupted_resets 5 _ _ rfl).1
  · exact (interrupted_resets 5 _ _ rfl).2.2 2 (by norm_num)

/-- C3 counterexample: the claim as stated is false. At the concrete input
`prev = initialNotebook`, `s = ""` the handler appends nothing to
`caseTimeline` (the JavaScript truthiness check `if (args.newTimelineEvent)`
rejects the empty string), and at any non-empty `s` the shallow merge stores
the `newTimelineEvent` argument itself as a property of the notebook object,
so a field is added. -/
theorem updateNotebook_claim_false : ¬ claimC3Statement :=
  fun h => absurd (h initialNotebook "") (by decide)

/-- C3 amended: an `updateNotebook` call whose arguments contain only
`newTimelineEvent = s` appends exactly the entry `s` to `caseTimeline` when
`s` is non-empty and appends nothing when `s` is empty; the declared fields
`caseTitle`, `currentPhase`, `keyData`, `candidateFramework` and `trialNotes`
are unchanged; and the shallow merge additionally stores `s` in the
`newTimelineEvent` property of the notebook object. -/
theorem updateNotebook_timeline_only (prev : NotebookState) (s : String) :
    (s ≠ "" → (applyUpdateNotebook prev (onlyTimelineArgs s)).caseTimeline =
        prev.caseTimeline ++ [s]) ∧
    (s = "" → (applyUpdateNotebook prev (onlyTimelineArgs s)).caseTimeline =
        prev.caseTimeline) ∧
    (applyUpdateNotebook prev (onlyTimelineArgs s)).caseTitle = prev.caseTitle ∧
    (applyUpdateNotebook prev (onlyTimelineArgs s)).currentPhase =
        prev.currentPhase ∧
    (applyUpdateNotebook prev (onlyTimelineArgs s)).keyData = prev.keyData ∧
    (applyUpdateNotebook prev (onlyTimelineArgs s)).candidateFramework =
        prev.candidateFramework ∧
    (applyUpdateNotebook prev (onlyTimelineArgs s)).trialNotes =
        prev.trialNotes ∧
    (applyUpdateNotebook prev (onlyTimelineArgs s)).newTimelineEvent = some s := by
  by_cases hs : s = "" <;>
    simp [applyUpdateNotebook, onlyTimelineArgs, truthyString, hs]

/-- Witness for C3 (amended): a concrete non-empty timeline event is appended
as a single entry and lands in the stray `newTimelineEvent` property. -/
theorem updateNotebook_timeline_only_witness :
    ("Framework Accepted" ≠ "") ∧
    (applyUpdateNotebook initialNotebook
        (onlyTimelineArgs "Framework Accepted")).caseTimeline =
      ["Framework Accepted"] ∧
    (applyUpdateNotebook initialNotebook
        (onlyTimelineArgs "Framework Accepted")).newTimelineEvent =
      some "Framework Accepted" :=
  ⟨by decide,
   (updateNotebook_timeline_only initialNotebook "Framework Accepted").1
     (by decide),
   (updateNotebook_timeline_only initialNotebook
       "Framework Accepted").2.2.2.2.2.2.2⟩

/-- The tool-call loop sends exactly one success response per
`updateNotebook` call, carrying that call's identifier and name, in call
order. -/
theorem processToolCalls_responses (nb : NotebookState)
    (fcs : List FunctionCall) :
    (processToolCalls nb fcs).2 =
      (fcs.filter fun fc => fc.name == "updateNotebook").map
        (fun fc =>
          ({ id := fc.id, name := fc.name, result := "Notebook updated" } :
            ToolResponse)) := by
  induction fcs generalizing nb with
  | nil => rfl
  | cons fc rest ih =>
    cases hname : (fc.name == "updateNotebook") <;>
      simp [processToolCalls, processFunctionCall, hname, List.filter_cons, ih]

/-- C4: in every run of the message callback, the tool responses sent are
exactly one per received `updateNotebook` invocation, in order, each carrying
the incoming call's identifier and name and the success payload — produced
synchronously by the same callback invocation that applies the mutation. -/
theorem toolCall_acknowledged (now : ℚ) (st : LiveState) (msg : ServerMessage) :
    (handleMessage now st msg).2 =
      (msg.functionCalls.filter fun fc => fc.name == "updateNotebook").map
        (fun fc =>
          ({ id := fc.id, name := fc.name, result := "Notebook updated" } :
            ToolResponse)) := by
  obtain ⟨ad, intr, fcs⟩ := msg
  cases ad <;> cases intr <;>
    simp [handleMessage, processToolCalls_responses]

/-- The tool-call loop treats a function call whose name is not
`updateNotebook` as if it were absent. -/
theorem processToolCalls_skips_unknown (nb : NotebookState) (fc : FunctionCall)
    (h : fc.name ≠ "updateNotebook") (pre post : List FunctionCall) :
    processToolCalls nb (pre ++ fc :: post) = processToolCalls nb (pre ++ post) := by
  induction pre generalizing nb with
  | nil =>
    have hb : (fc.name == "updateNotebook") = false := by simpa using h
    simp [processToolCalls, processFunctionCall, hb]
  | cons g rest ih => simp [processToolCalls, ih]

/-- C10: a received tool invocation whose function name is not
`updateNotebook` is silently ignored by the message callback: the callback's
result — final state (notebook included) and the responses it sends — is
identical to the run without that call, so no notebook change is applied and
no tool response is sent for it. -/
theorem unknown_tool_ignored (now : ℚ) (st : LiveState) (ad : Option ℚ)
    (intr : Bool) (fc : FunctionCall) (h : fc.name ≠ "updateNotebook")
    (pre post : List FunctionCall) :
    handleMessage now st
        { audioDuration := ad, interrupted := intr,
          functionCalls := pre ++ fc :: post } =
      handleMessage now st
        { audioDuration := ad, interrupted := intr,
          functionCalls := pre ++ post } := by
  simp [handleMessage, processToolCalls_skips_unknown _ fc h pre post]

/-- Witness for C10: a concrete `searchCaseLaw` call among two
`updateNotebook` calls leaves the callback's behaviour exactly as if only the
two `updateNotebook` calls had arrived. -/
theorem unknown_tool_ignored_witness :
    (("searchCaseLaw" : String) ≠ "updateNotebook") ∧
    handleMessage 0
        { sources := [], nextStartTime := 0, notebook := initialNotebook }
        { audioDuration := none, interrupted := false,
          functionCalls :=
            [{ id := "1", name := "updateNotebook",
               args := onlyTimelineArgs "a" }] ++
              ({ id := "2", name := "searchCaseLaw",
                 args := onlyTimelineArgs "b" } : FunctionCall) ::
                [{ id := "3", name := "updateNotebook",
                   args := onlyTimelineArgs "c" }] } =
      handleMessage 0
        { sources := [], nextStartTime := 0, notebook := initialNotebook }
        { audioDuration := none, interrupted := false,
          functionCalls :=
            [{ id := "1", name := "updateNotebook",
               args := onlyTimelineArgs "a" }] ++
              [{ id := "3", name := "updateNotebook",
                 args := onlyTimelineArgs "c" }] } :=
  ⟨by decide,
   unknown_tool_ignored 0
     { sources := [], nextStartTime := 0, notebook := initialNotebook }
     none false
     { id := "2", name := "searchCaseLaw", args := onlyTimelineArgs "b" }
     (by decide)
     [{ id := "1", name := "updateNotebook", args := onlyTimelineArgs "a" }]
     [{ id := "3", name := "updateNotebook", args := onlyTimelineArgs "c" }]⟩

/-- C5 (failing-input evaluation): the session starts unmuted, the init
effect installs the audio handler, the session activates, and the user then
toggles mute. The component's `isMuted` state is now true, yet the very next
audio-process callback still sends a realtime-input message: the installed
closure tests the `isMuted` value it captured when the init effect ran
(false), because the effect's dependency array omits `isMuted` and, unlike
the gain (which goes through the synced `inputGainRef`), no ref mirrors the
mute state. This contradicts both the spec and the intent of the
`if (isMuted || !sessionRef.current) return` guard. -/
theorem muted_frame_still_sent :
    ((toggleMute (activateSession (installAudioHandler initialComponent))).isMuted
        = true) ∧
    onaudioprocess (toggleMute (activateSession (installAudioHandler
        initialComponent))) [0] ≠ none := by
  constructor
  · rfl
  · intro h
    simp [onaudioprocess, toggleMute, activateSession, installAudioHandler,
      initialComponent] at h

/-- Every clamped sample lies in `[-1, 1]`. -/
theorem clampSample_bounds (v : ℚ) :
    -1 ≤ clampSample v ∧ clampSample v ≤ 1 := by
  unfold clampSample
  constructor
  · exact le_max_left _ _
  · exact max_le (by norm_num) (min_le_left _ _)

/-- The 16-bit conversion never leaves the signed 16-bit range. -/
theorem encodeSample_range (v : ℚ) :
    -32768 ≤ encodeSample v ∧ encodeSample v ≤ 32767 := by
  obtain ⟨h1, h2⟩ := clampSample_bounds v
  unfold encodeSample
  by_cases hneg : clampSample v < 0
  · simp only [hneg, if_true]
    rw [round_eq]
    constructor
    · rw [Int.le_floor]
      push_cast
      nlinarith
    · have hfl : ⌊clampSample v * 32768 + 1 / 2⌋ < 1 := by
        rw [Int.floor_lt]
        push_cast
        nlinarith
      omega
  · simp only [hneg, if_false]
    push_neg at hneg
    rw [round_eq]
    constructor
    · have hfl : (0 : ℤ) ≤ ⌊clampSample v * 32767 + 1 / 2⌋ := by
        rw [Int.le_floor]
        push_cast
        nlinarith
      omega
    · have hfl : ⌊clampSample v * 32767 + 1 / 2⌋ < 32768 := by
        rw [Int.floor_lt]
        push_cast
        nlinarith
      omega

/-- C6: for every gain `g` in `[0, 3]` and input sample `x` in `[-1, 1]`, the
sample the capture path encodes into the outbound 16-bit PCM message is
`round(clamp(x*g, -1, 1) * 32767)` when the clamped value is non-negative and
`round(clamp(x*g, -1, 1) * 32768)` when it is negative, and the encoded value
always lies within the signed 16-bit range `[-32768, 32767]`: no wraparound
overflow occurs. -/
theorem gain_encode_no_overflow (g x : ℚ) (hg0 : 0 ≤ g) (hg3 : g ≤ 3)
    (hx1 : -1 ≤ x) (hx2 : x ≤ 1) :
    createPcmBlob (applyGain g [x]) =
      [if clampSample (x * g) < 0 then round (clampSample (x * g) * 32768)
       else round (clampSample (x * g) * 32767)] ∧
    -32768 ≤ encodeSample (x * g) ∧ encodeSample (x * g) ≤ 32767 :=
  ⟨rfl, encodeSample_range (x * g)⟩

/-- Witness for C6: gain 2 applied to sample 3/4 exceeds 1 before clamping;
the encoded value is exactly 32767, inside the 16-bit range. -/
theorem gain_encode_no_overflow_witness :
    ((0 : ℚ) ≤ 2 ∧ (2 : ℚ) ≤ 3 ∧ (-1 : ℚ) ≤ 3/4 ∧ (3/4 : ℚ) ≤ 1) ∧
    -32768 ≤ encodeSample ((3/4 : ℚ) * 2) ∧ encodeSample ((3/4 : ℚ) * 2) ≤ 32767 :=
  ⟨by norm_num,
   (gain_encode_no_overflow 2 (3/4) (by norm_num) (by norm_num) (by norm_num)
      (by norm_num)).2⟩

/-- C7: ending a live session emits exactly one local `SavedSession` write,
and exactly one remote session insert precisely when the user is
authenticated and a case is selected (a present, non-empty `caseId`); in
every other combination no remote insert is issued. -/
theorem end_session_persists (u : Bool) (caseId : Option String) (sid : String)
    (hc : caseId ≠ some "") :
    (handleEndSession u caseId sid).countP isSaveLocal = 1 ∧
    (handleEndSession u caseId sid).countP isRemoteInsert =
      (if u && caseId.isSome then 1 else 0) ∧
    ((handleEndSession u caseId sid).countP isRemoteInsert = 1 ↔
      (u = true ∧ caseId.isSome = true)) := by
  rcases caseId with _ | c
  · cases u <;>
      simp [handleEndSession, isSaveLocal, isRemoteInsert, List.countP_cons,
        List.countP_append]
  · have hcne : (c == "") = false := by
      rcases h : (c == "") with _ | _
      · rfl
      · exact absurd (congrArg some (by simpa using h)) hc
    cases u <;>
      simp [handleEndSession, isSaveLocal, isRemoteInsert, List.countP_cons,
        List.countP_append, hcne]

/-- Witness for C7: an authenticated user with a selected case gets one local
write and one remote insert. -/
theorem end_session_persists_witness :
    ((some "case-7" : Option String) ≠ some "") ∧
    (handleEndSession true (some "case-7") "s1").countP isSaveLocal = 1 ∧
    (handleEndSession true (some "case-7") "s1").countP isRemoteInsert = 1 := by
  refine ⟨by decide, ?_, ?_⟩
  · exact (end_session_persists true (some "case-7") "s1" (by decide)).1
  · exact (end_session_persists true (some "case-7") "s1" (by decide)).2.2.mpr
      ⟨rfl, rfl⟩

/-- A predicate false on every element of a list makes `findIdx?` (at any
start index) return `none`. -/
theorem findIdx_none_of_forall_false {α : Type} (p : α → Bool) (l : List α)
    (h : ∀ x ∈ l, p x = false) : ∀ i, List.findIdx? p l i = none := by
  induction l with
  | nil => intro i; rfl
  | cons a t ih =>
    intro i
    have ha : p a = false := h a (List.mem_cons_self a t)
    have ht : ∀ x ∈ t, p x = false :=
      fun x hx => h x (List.mem_cons_of_mem a hx)
    simp [List.findIdx?, ha, ih ht]

/-- When no stored record shares the new record's id, the upsert step is a
plain `unshift` to the front. -/
theorem upsertSession_new (sessions : List SavedSession) (s : SavedSession)
    (h : ∀ t ∈ sessions, t.id ≠ s.id) :
    upsertSession sessions s = s :: sessions := by
  have hnone : sessions.findIdx? (fun t => t.id == s.id) = none :=
    findIdx_none_of_forall_false _ _ (fun t ht => by simpa using h t ht) 0
  simp [upsertSession, hnone]

/-- C8: after every `saveSession` call the stored "all sessions" list holds
at most 50 records (first conjunct, for every state and record); when the
saved record's id is not already present it is placed at the front before the
list is trimmed to its first 50 entries (second conjunct); and the "last
session" slot holds exactly the record just saved (third conjunct). -/
theorem save_session_bounded (st : StorageState) (s : SavedSession)
    (hnew : ∀ t ∈ st.sessions, t.id ≠ s.id) :
    (∀ (st2 : StorageState) (s2 : SavedSession),
        (saveSessionOk st2 s2).sessions.length ≤ 50) ∧
    (saveSessionOk st s).sessions = (s :: st.sessions).take 50 ∧
    (saveSessionOk st s).lastSession = some s := by
  refine ⟨fun st2 s2 => ?_, ?_, rfl⟩
  · simp only [saveSessionOk, List.length_take]
    exact min_le_left _ _
  · simp [saveSessionOk, upsertSession_new st.sessions s hnew]

/-- Witness for C8: saving a fresh record over a one-record store puts it in
front of the existing record and fills the last-session slot. -/
theorem save_session_bounded_witness :
    (∀ t ∈ [demoSession "a" 1 60], t.id ≠ (demoSession "b" 2 90).id) ∧
    (saveSessionOk { sessions := [demoSession "a" 1 60], lastSession := none }
        (demoSession "b" 2 90)).sessions =
      [demoSession "b" 2 90, demoSession "a" 1 60] ∧
    (saveSessionOk { sessions := [demoSession "a" 1 60], lastSession := none }
        (demoSession "b" 2 90)).lastSession = some (demoSession "b" 2 90) := by
  refine ⟨by decide, ?_, ?_⟩
  · rw [(save_session_bounded
        { sessions := [demoSession "a" 1 60], lastSession := none }
        (demoSession "b" 2 90) (by decide)).2.1]
    rfl
  · exact (save_session_bounded
        { sessions := [demoSession "a" 1 60], lastSession := none }
        (demoSession "b" 2 90) (by decide)).2.2

/-- C9: `saveSession` never propagates a storage failure to its caller. Every
error thrown inside its `try` block (under any injected backend failure) is
caught and turned into a logged normal return whose state is exactly the
storage state as of the failure point — the in-memory flow continues and the
incomplete persistence attempt is silently lost; a successful body returns
the fully written state with no log. -/
theorem save_session_catches (b : StorageBackend) (st : StorageState)
    (s : SavedSession) :
    (∀ e : StorageState × String, saveSessionBody b st s = .error e →
        saveSessionRun b st s = (e.1, some ("Failed to save session: " ++ e.2))) ∧
    (∀ st1 : StorageState, saveSessionBody b st s = .ok st1 →
        saveSessionRun b st s = (st1, none)) := by
  constructor
  · intro e he
    simp [saveSessionRun, he]
  · intro st1 h1
    simp [saveSessionRun, h1]

/-- Witness for C9: with the "all sessions" write failing, the body throws
and `saveSession` returns normally with the untouched state and a log
message. -/
theorem save_session_catches_witness :
    (saveSessionBody
        { getItemFails := false, setSessionsFails := true, setLastFails := false }
        { sessions := [], lastSession := none } (demoSession "w" 3 10) =
      .error ({ sessions := [], lastSession := none }, "setItem failed")) ∧
    saveSessionRun
        { getItemFails := false, setSessionsFails := true, setLastFails := false }
        { sessions := [], lastSession := none } (demoSession "w" 3 10) =
      ({ sessions := [], lastSession := none },
        some "Failed to save session: setItem failed") :=
  ⟨rfl,
   (save_session_catches
       { getItemFails := false, setSessionsFails := true, setLastFails := false }
       { sessions := [], lastSession := none } (demoSession "w" 3 10)).1
     ({ sessions := [], lastSession := none }, "setItem failed") rfl⟩

end CaseBuddy
